import Mathlib

/-!
Verification of `Sources/LlamaCppAdapter/include/llama_adapter.h`.

The repository under verification is a declarations-only C header, so the
embedding is an abstract syntax of the header's declaration surface,
transliterated declaration by declaration from the source file, plus the
value-range semantics of the fixed-width C integer types the header uses.
-/

namespace LlamaAdapter

/-- C type expressions occurring in the adapter header. -/
inductive CType where
  | int32
  | uint32
  | cbool
  | cfloat
  | cint
  | void
  | charConstPtr
  | ptrTo (tag : String)
  | named (n : String)
  deriving DecidableEq

/-- A struct field: a name together with its C type. -/
structure CField where
  name : String
  type : CType
  deriving DecidableEq

/-- A C function prototype: name, return type, parameter list. -/
structure CFun where
  name : String
  ret : CType
  params : List CField
  deriving DecidableEq

/-- A top-level declaration of the header.  Prototypes that appear only
inside line comments in the source are kept as `commentedFun`, so that
the active (uncommented) surface can be distinguished from them. -/
inductive Decl where
  | typedefForward (tag : String) (n : String)
  | typedefAlias (n : String) (ty : CType)
  | typedefStruct (n : String) (fields : List CField)
  | funDecl (f : CFun)
  | commentedFun (f : CFun)
  deriving DecidableEq

/-- Fields of `llama_adapter_model_params` (header lines 22-27). -/
def llama_adapter_model_params : List CField :=
  [⟨"n_gpu_layers", .int32⟩, ⟨"use_mmap", .cbool⟩,
   ⟨"use_mlock", .cbool⟩, ⟨"n_threads", .int32⟩]

/-- Fields of `llama_adapter_context_params` (header lines 30-35). -/
def llama_adapter_context_params : List CField :=
  [⟨"n_ctx", .uint32⟩, ⟨"n_batch", .uint32⟩,
   ⟨"n_threads", .int32⟩, ⟨"use_metal", .cbool⟩]

/-- Fields of `llama_adapter_sampling_params` (header lines 38-43). -/
def llama_adapter_sampling_params : List CField :=
  [⟨"temperature", .cfloat⟩, ⟨"top_p", .cfloat⟩,
   ⟨"top_k", .int32⟩, ⟨"n_predict", .int32⟩]

/-- `void llama_adapter_backend_init(bool use_numa);` (header line 49). -/
def llama_adapter_backend_init : CFun :=
  ⟨"llama_adapter_backend_init", .void, [⟨"use_numa", .cbool⟩]⟩

/-- `void llama_adapter_backend_free(void);` (header line 50). -/
def llama_adapter_backend_free : CFun :=
  ⟨"llama_adapter_backend_free", .void, []⟩

/-- The full declaration body of `llama_adapter.h`, in source order,
including the commented-out prototypes of lines 53-66. -/
def headerBody : List Decl :=
  [ .typedefForward "llama_model" "llama_model",
    .typedefForward "llama_context" "llama_context",
    .typedefAlias "llama_token" .int32,
    .typedefStruct "llama_adapter_model_params" llama_adapter_model_params,
    .typedefStruct "llama_adapter_context_params" llama_adapter_context_params,
    .typedefStruct "llama_adapter_sampling_params" llama_adapter_sampling_params,
    .funDecl llama_adapter_backend_init,
    .funDecl llama_adapter_backend_free,
    .commentedFun ⟨"llama_adapter_load_model", .ptrTo "llama_model",
      [⟨"path", .charConstPtr⟩, ⟨"params", .named "llama_adapter_model_params"⟩]⟩,
    .commentedFun ⟨"llama_adapter_free_model", .void,
      [⟨"model", .ptrTo "llama_model"⟩]⟩,
    .commentedFun ⟨"llama_adapter_new_context", .ptrTo "llama_context",
      [⟨"model", .ptrTo "llama_model"⟩, ⟨"params", .named "llama_adapter_context_params"⟩]⟩,
    .commentedFun ⟨"llama_adapter_free_context", .void,
      [⟨"ctx", .ptrTo "llama_context"⟩]⟩,
    .commentedFun ⟨"llama_adapter_tokenize", .int32,
      [⟨"ctx", .ptrTo "llama_context"⟩, ⟨"text", .charConstPtr⟩,
       ⟨"tokens", .ptrTo "llama_token"⟩, ⟨"n_max_tokens", .int32⟩, ⟨"add_bos", .cbool⟩]⟩,
    .commentedFun ⟨"llama_adapter_token_to_str", .charConstPtr,
      [⟨"ctx", .ptrTo "llama_context"⟩, ⟨"token", .named "llama_token"⟩]⟩,
    .commentedFun ⟨"llama_adapter_eval", .cint,
      [⟨"ctx", .ptrTo "llama_context"⟩, ⟨"tokens", .ptrTo "llama_token"⟩,
       ⟨"n_tokens", .int32⟩, ⟨"n_past", .int32⟩]⟩,
    .commentedFun ⟨"llama_adapter_sample_token", .named "llama_token",
      [⟨"ctx", .ptrTo "llama_context"⟩, ⟨"params", .named "llama_adapter_sampling_params"⟩]⟩ ]

/-- The active (uncommented) function declarations of a declaration list. -/
def activeFuns (ds : List Decl) : List CFun :=
  ds.filterMap fun d =>
    match d with
    | .funDecl f => some f
    | _ => none

/-- Whether a C type is a pointer type. -/
def CType.isPtr : CType → Bool
  | .charConstPtr => true
  | .ptrTo _ => true
  | _ => false

/-- Whether a C type mentions (is, points to, or names) the type called `s`. -/
def CType.refersTo : CType → String → Bool
  | .ptrTo t, s => t == s
  | .named n, s => n == s
  | _, _ => false

/-- Whether a prototype mentions the type called `s` in its return type
or any parameter type. -/
def CFun.mentions (f : CFun) (s : String) : Bool :=
  f.ret.refersTo s || f.params.any fun p => p.type.refersTo s

/-- The typedef underlying the type alias called `n`, if the list declares one. -/
def aliasType (ds : List Decl) (n : String) : Option CType :=
  (ds.filterMap fun d =>
    match d with
    | .typedefAlias m t => if m == n then some t else none
    | _ => none).head?

/-- The field list of the struct typedef called `n`, if the list defines one. -/
def structFields (ds : List Decl) (n : String) : Option (List CField) :=
  (ds.filterMap fun d =>
    match d with
    | .typedefStruct m fs => if m == n then some fs else none
    | _ => none).head?

/-- Whether the list holds a struct definition with visible fields for name `n`. -/
def definesFields (ds : List Decl) (n : String) : Bool :=
  ds.any fun d =>
    match d with
    | .typedefStruct m _ => m == n
    | _ => false

/-- Whether a C type is a fixed-width integer or boolean type. -/
def CType.isFixedIntOrBool : CType → Bool
  | .int32 => true
  | .uint32 => true
  | .cbool => true
  | _ => false

/-- A value stored in one struct field: a mathematical integer for the
integer types, a boolean for `bool`, and a raw 32-bit pattern for `float`
(the header assigns floats no behavior, so only their storage is modelled). -/
inductive CVal where
  | intV (v : Int)
  | boolV (b : Bool)
  | floatBits (bits : Nat)
  deriving DecidableEq

/-- smallest `int32_t` value, `-2^31` -/
def int32Min : Int := -(2 ^ 31)

/-- largest `int32_t` value, `2^31 - 1` -/
def int32Max : Int := 2 ^ 31 - 1

/-- number of `uint32_t` values, `2^32` -/
def uint32Mod : Int := 2 ^ 32

/-- Whether a value is representable in a field of the given C type. -/
def fits : CType → CVal → Bool
  | .int32, .intV v => decide (int32Min ≤ v ∧ v ≤ int32Max)
  | .uint32, .intV v => decide (0 ≤ v ∧ v < uint32Mod)
  | .cbool, .boolV _ => true
  | .cfloat, .floatBits b => decide (b < 2 ^ 32)
  | _, _ => false

/-- C unsigned 32-bit semantics: out-of-range values reduce modulo `2^32`. -/
def uint32Wrap (v : Int) : Int := v % uint32Mod

/-- A struct (given by its field list) stores a valuation exactly when the
valuation supplies one representable value per field; the header attaches
no further predicate to any of its structs. -/
def structAccepts (fields : List CField) (vals : List CVal) : Bool :=
  fields.length == vals.length &&
    (List.zip fields vals).all fun p => fits p.1.type p.2

/-- One textual inclusion of the header into a translation unit whose
preprocessor state records whether `LLAMA_CPP_ADAPTER_H` is defined:
lines 1-2 skip the whole body when the macro is already defined, and
otherwise define the macro and emit the body. -/
def includeHeader (defined : Bool) : List Decl × Bool :=
  if defined then ([], defined) else (headerBody, true)

/-- The declarations accumulated by `n` successive inclusions of the header. -/
def includeTimes : Nat → Bool → List Decl
  | 0, _ => []
  | n + 1, st =>
    let r := includeHeader st
    r.1 ++ includeTimes n r.2

/-- Modelled from the spec: the second near-duplicate header file of the
repository is absent from the sources provided; per the spec it "merely
re-typedefs two opaque structs already defined by the wrapped library"
(`llama_model`, `llama_context`), so its body is those two forward
typedefs and nothing else. -/
def secondHeaderBody : List Decl :=
  [ .typedefForward "llama_model" "llama_model",
    .typedefForward "llama_context" "llama_context" ]

/-- The binding surface a declaration list presents to a consumer: its
declarations other than commented-out prototypes. -/
def surface (ds : List Decl) : List Decl :=
  ds.filter fun d =>
    match d with
    | .commentedFun _ => false
    | _ => true

/-- Auxiliary: once the guard macro is defined, further inclusions of the
header emit no declarations at all. -/
theorem includeTimes_defined (n : Nat) : includeTimes n true = [] := by
  induction n with
  | zero => rfl
  | succ m ih => simp [includeTimes, includeHeader, ih]

/-- C1: the active (uncommented) function surface of the header is exactly
the backend-initialization function, taking one boolean NUMA-hint argument
and returning nothing, and the backend-teardown function, taking no
arguments and returning nothing; no other uncommented function
declaration exists. -/
theorem c1_active_function_surface :
    activeFuns headerBody = [llama_adapter_backend_init, llama_adapter_backend_free] ∧
    llama_adapter_backend_init.ret = CType.void ∧
    llama_adapter_backend_init.params = [⟨"use_numa", CType.cbool⟩] ∧
    llama_adapter_backend_free.ret = CType.void ∧
    llama_adapter_backend_free.params = [] :=
  ⟨rfl, rfl, rfl, rfl, rfl⟩

/-- C2 counterexample: the claim that every field of every parameter
struct has a fixed-width integer or boolean type is false on the code at
a concrete input: the sampling struct's `temperature` field has C type
`float`, which is neither a fixed-width integer nor a boolean type. -/
theorem c2_counterexample :
    structFields headerBody "llama_adapter_sampling_params" =
      some llama_adapter_sampling_params ∧
    CField.mk "temperature" CType.cfloat ∈ llama_adapter_sampling_params ∧
    CType.isFixedIntOrBool CType.cfloat = false := by
  decide

/-- C2 amended: the model- and context-parameter structs have only
fixed-width integer and boolean fields, while the sampling-parameter
struct has two single-precision float fields (`temperature`, `top_p`)
followed by two fixed-width integer fields (`top_k`, `n_predict`). -/
theorem c2_amended_field_types :
    (llama_adapter_model_params.all fun f => f.type.isFixedIntOrBool) = true ∧
    (llama_adapter_context_params.all fun f => f.type.isFixedIntOrBool) = true ∧
    llama_adapter_sampling_params.map CField.type =
      [CType.cfloat, CType.cfloat, CType.int32, CType.int32] := by
  decide

/-- C3: every uncommented function declared in the header returns `void`
and exposes no failure channel: no non-void return value and no pointer
(out-)parameter through which an error could be reported. -/
theorem c3_void_returns_no_failure_channel :
    ((activeFuns headerBody).all fun f =>
      f.ret == CType.void && f.params.all fun p => !p.type.isPtr) = true :=
  rfl

/-- C4: the two handle types are declared only as forward typedefs with no
visible fields, and no uncommented function declaration takes or returns
a `llama_model` or `llama_context` value, so no visible code path touches
either handle. -/
theorem c4_handles_untouched :
    Decl.typedefForward "llama_model" "llama_model" ∈ headerBody ∧
    Decl.typedefForward "llama_context" "llama_context" ∈ headerBody ∧
    definesFields headerBody "llama_model" = false ∧
    definesFields headerBody "llama_context" = false ∧
    ((activeFuns headerBody).all fun f =>
      !f.mentions "llama_model" && !f.mentions "llama_context") = true := by
  decide

/-- C5 counterexample: the two drafts do not declare the same binding
surface: the full header's surface declares the backend-initialization
function, which the second draft (modelled from the spec as the two
opaque forward typedefs alone) does not declare. -/
theorem c5_counterexample :
    surface secondHeaderBody ≠ surface headerBody ∧
    Decl.funDecl llama_adapter_backend_init ∈ surface headerBody ∧
    Decl.funDecl llama_adapter_backend_init ∉ surface secondHeaderBody := by
  decide

/-- C5 amended: the two drafts describe one component in that every
declaration of the second draft's surface occurs in the full header's
surface (the two opaque handle typedefs), but the two surfaces are not
equivalent: the full header declares strictly more. -/
theorem c5_amended_shared_core :
    surface secondHeaderBody ⊆ surface headerBody ∧
    ¬ surface headerBody ⊆ surface secondHeaderBody := by
  decide

/-- C6: the parameter structs validate nothing: any per-field
representable valuation of the model-, context-, and sampling-parameter
structs is accepted, including negative thread counts and a negative
maximum-token count. -/
theorem c6_no_validation
    (g t : Int) (mm ml : Bool)
    (ctx batch t2 : Int) (metal : Bool)
    (temp tp : Nat) (k np : Int)
    (hg : fits CType.int32 (CVal.intV g) = true)
    (ht : fits CType.int32 (CVal.intV t) = true)
    (hctx : fits CType.uint32 (CVal.intV ctx) = true)
    (hbatch : fits CType.uint32 (CVal.intV batch) = true)
    (ht2 : fits CType.int32 (CVal.intV t2) = true)
    (htemp : fits CType.cfloat (CVal.floatBits temp) = true)
    (htp : fits CType.cfloat (CVal.floatBits tp) = true)
    (hk : fits CType.int32 (CVal.intV k) = true)
    (hnp : fits CType.int32 (CVal.intV np) = true) :
    structAccepts llama_adapter_model_params
      [.intV g, .boolV mm, .boolV ml, .intV t] = true ∧
    structAccepts llama_adapter_context_params
      [.intV ctx, .intV batch, .intV t2, .boolV metal] = true ∧
    structAccepts llama_adapter_sampling_params
      [.floatBits temp, .floatBits tp, .intV k, .intV np] = true := by
  simp only [fits, int32Min, int32Max, uint32Mod, decide_eq_true_eq]
    at hg ht hctx hbatch ht2 htemp htp hk hnp
  refine ⟨?_, ?_, ?_⟩ <;>
    simp [structAccepts, llama_adapter_model_params, llama_adapter_context_params,
      llama_adapter_sampling_params, fits, int32Min, int32Max, uint32Mod] <;>
    omega

/-- C6 witness: a concrete valuation with a negative thread count in both
structs that carry one and a negative maximum-token count is accepted. -/
theorem c6_no_validation_witness :
    structAccepts llama_adapter_model_params
      [.intV 12, .boolV true, .boolV false, .intV (-5)] = true ∧
    structAccepts llama_adapter_context_params
      [.intV 4096, .intV 512, .intV (-3), .boolV true] = true ∧
    structAccepts llama_adapter_sampling_params
      [.floatBits 1065353216, .floatBits 1063675494, .intV 40, .intV (-1)] = true :=
  c6_no_validation 12 (-5) true false 4096 512 (-3) true 1065353216 1063675494 40 (-1)
    (by decide) (by decide) (by decide) (by decide) (by decide)
    (by decide) (by decide) (by decide) (by decide)

/-- C7: the model-parameters struct has exactly the fields
`n_gpu_layers`, `use_mmap`, `use_mlock`, `n_threads`, and the
context-parameters struct has exactly the fields `n_ctx`, `n_batch`,
`n_threads`, `use_metal`, in that order and with no others. -/
theorem c7_exact_fields :
    structFields headerBody "llama_adapter_model_params" =
      some [⟨"n_gpu_layers", CType.int32⟩, ⟨"use_mmap", CType.cbool⟩,
            ⟨"use_mlock", CType.cbool⟩, ⟨"n_threads", CType.int32⟩] ∧
    structFields headerBody "llama_adapter_context_params" =
      some [⟨"n_ctx", CType.uint32⟩, ⟨"n_batch", CType.uint32⟩,
            ⟨"n_threads", CType.int32⟩, ⟨"use_metal", CType.cbool⟩] :=
  ⟨rfl, rfl⟩

/-- C8: `llama_token` is a typedef of `int32_t`; the representable token
values are exactly the integers in `[-2^31, 2^31)`, and negative token
values are representable. -/
theorem c8_token_is_int32 :
    aliasType headerBody "llama_token" = some CType.int32 ∧
    (∀ v : Int, fits CType.int32 (CVal.intV v) = true ↔ -(2 ^ 31) ≤ v ∧ v < 2 ^ 31) ∧
    fits CType.int32 (CVal.intV (-1)) = true := by
  refine ⟨rfl, ?_, by decide⟩
  intro v
  simp only [fits, int32Min, int32Max, decide_eq_true_eq]
  omega

/-- C9: including the header is idempotent: starting from a translation
unit where the guard macro is undefined, any number `n ≥ 1` of inclusions
yields exactly the declarations of a single inclusion, with no
declaration repeated. -/
theorem c9_include_idempotent (n : Nat) (h : 1 ≤ n) :
    includeTimes n false = includeTimes 1 false ∧
    (includeTimes n false).Nodup := by
  obtain ⟨m, rfl⟩ : ∃ m, n = m + 1 := ⟨n - 1, by omega⟩
  refine ⟨?_, ?_⟩ <;>
    simp only [includeTimes, includeHeader, if_neg Bool.false_ne_true,
      includeTimes_defined, List.append_nil]
  decide

/-- C9 witness: two inclusions yield the same declarations as one, with
no redefinition. -/
theorem c9_include_idempotent_witness :
    includeTimes 2 false = includeTimes 1 false ∧
    (includeTimes 2 false).Nodup :=
  c9_include_idempotent 2 (by decide)

/-- C10: in the context-parameters struct, `n_ctx` and `n_batch` are
`uint32_t` while `n_threads` is `int32_t`: the representable `n_ctx` and
`n_batch` values are exactly `[0, 2^32)` (so negatives are
unrepresentable), out-of-range unsigned arithmetic wraps modulo `2^32`,
and `n_threads` can hold negative values. -/
theorem c10_context_field_ranges :
    structFields headerBody "llama_adapter_context_params" =
      some llama_adapter_context_params ∧
    llama_adapter_context_params.map CField.type =
      [CType.uint32, CType.uint32, CType.int32, CType.cbool] ∧
    (∀ v : Int, fits CType.uint32 (CVal.intV v) = true ↔ 0 ≤ v ∧ v < 2 ^ 32) ∧
    (∀ v : Int, 0 ≤ uint32Wrap v ∧ uint32Wrap v < 2 ^ 32 ∧
      (2 ^ 32 : Int) ∣ (v - uint32Wrap v)) ∧
    fits CType.int32 (CVal.intV (-2)) = true := by
  refine ⟨rfl, rfl, ?_, ?_, by decide⟩
  · intro v
    simp only [fits, uint32Mod, decide_eq_true_eq]
  · intro v
    refine ⟨Int.emod_nonneg v (by norm_num [uint32Mod]), ?_, ?_⟩
    · have h := Int.emod_lt_of_pos v (show (0 : Int) < uint32Mod by norm_num [uint32Mod])
      simpa [uint32Mod] using h
    · refine ⟨v / uint32Mod, ?_⟩
      have h := Int.emod_def v uint32Mod
      simp only [uint32Wrap, uint32Mod] at h ⊢
      omega

end LlamaAdapter
